import Mathlib

/-!
Verification of the Telegram content-generation bot against its
natural-language specification.  The definitions below are a shallow
embedding of the TypeScript source: JS strings become `List Char`,
`Date` timestamps become `Nat` milliseconds, JS `Map`s become
association lists with JS `Map` get/set/delete semantics, and external
platform calls (the network, `JSON.parse`, Unicode normalization) are
parameters of the embedded functions.
-/

namespace TelegramContent

/-- JS strings are modelled as lists of characters. -/
abbrev Str := List Char

/-- First index at which `pat` occurs as a contiguous sublist of `s`
(the JS `String.indexOf` for a substring pattern). -/
def findSub (pat : Str) : Str → Option Nat
  | [] => if pat = [] then some 0 else none
  | c :: rest =>
    if pat.isPrefixOf (c :: rest) then some 0
    else (findSub pat rest).map (· + 1)

/-- Whether `pat` occurs inside `s` (JS `String.includes`). -/
def containsSub (pat s : Str) : Bool := (findSub pat s).isSome

/-- JS `String.prototype.trim`: strip leading and trailing whitespace. -/
def jsTrim (s : Str) : Str :=
  (s.dropWhile Char.isWhitespace).reverse.dropWhile Char.isWhitespace |>.reverse

/-- JS `String.prototype.toLowerCase`, restricted to ASCII case folding
(the error messages the code inspects are ASCII). -/
def jsLower (s : Str) : Str := s.map Char.toLower

/-- JS `Map.get`. -/
def mapGet (m : List (Str × α)) (k : Str) : Option α :=
  match m with
  | [] => none
  | (k', v) :: rest => if k' = k then some v else mapGet rest k

/-- JS `Map.set`: replace the entry in place when the key is present,
append otherwise. -/
def mapSet (m : List (Str × α)) (k : Str) (v : α) : List (Str × α) :=
  match m with
  | [] => [(k, v)]
  | (k', v') :: rest => if k' = k then (k, v) :: rest else (k', v') :: mapSet rest k v

/-- JS `Map.delete`. -/
def mapDelete (m : List (Str × α)) (k : Str) : List (Str × α) :=
  m.filter (fun e => e.1 ≠ k)

theorem mapGet_mapSet_self (m : List (Str × α)) (k : Str) (v : α) :
    mapGet (mapSet m k v) k = some v := by
  induction m with
  | nil => simp [mapSet, mapGet]
  | cons e rest ih =>
    obtain ⟨k', v'⟩ := e
    by_cases h : k' = k <;> simp [mapSet, mapGet, h, ih]

theorem mapGet_mapSet_ne (m : List (Str × α)) (k k' : Str) (v : α) (h : k' ≠ k) :
    mapGet (mapSet m k v) k' = mapGet m k' := by
  induction m with
  | nil => simp [mapSet, mapGet, Ne.symm h]
  | cons e rest ih =>
    obtain ⟨k₀, v₀⟩ := e
    by_cases h0 : k₀ = k
    · subst h0
      simp [mapSet, mapGet, Ne.symm h]
    · simp [mapSet, mapGet, h0, ih]

/-! ### Conversation data model (src/types/index.ts) -/

/-- `ConversationState.step`. -/
inductive Step
  | idle
  | waiting_topic
  | waiting_title_selection
  | outline_generated
deriving DecidableEq, Repr

/-- `ConversationState.processingTask`. -/
inductive Task
  | titles
  | outline
  | article
deriving DecidableEq, Repr

/-- `ArticleTitle`. -/
structure ArticleTitle where
  title : Str
  titleNumber : Str
deriving DecidableEq, Repr

/-- `OutlineInference`. -/
structure OutlineInference where
  targetKeyword : Str
  targetAudience : Str
  contentPurpose : Str
  estimatedWordCount : Str
deriving DecidableEq, Repr

/-- `OutlineSection`. -/
structure OutlineSection where
  heading : Str
  subheadings : Option (List Str) := none
  notes : Option Str := none
deriving DecidableEq, Repr

/-- `ArticleOutline`. -/
structure ArticleOutline where
  inference : OutlineInference
  outline : List OutlineSection
deriving DecidableEq, Repr

/-- `ConversationState`.  `Date` values are `Nat` millisecond timestamps.
The optional JS boolean `isProcessing` is only ever inspected for
truthiness, so the absent/undefined state is collapsed to `false`. -/
structure ConversationState where
  userId : Str
  chatId : Int
  step : Step
  topic : Option Str := none
  generatedTitles : Option (List ArticleTitle) := none
  selectedTitle : Option Str := none
  generatedOutline : Option ArticleOutline := none
  lastActivity : Nat
  isProcessing : Bool := false
  processingTask : Option Task := none
  lockAcquiredAt : Option Nat := none
deriving DecidableEq, Repr

/-- The `conversations` map of `ConversationManager`. -/
abbrev Store := List (Str × ConversationState)

/-- `ConversationManager.getKey`: the template literal `userId:chatId`. -/
def getKey (userId : Str) (chatId : Int) : Str :=
  userId ++ [':'] ++ (toString chatId).data

/-- `ConversationManager.getConversation`: return the existing state or a
default-initialized one in step `idle`; always refresh `lastActivity`.
`now` stands for `new Date()`. -/
def getConversation (userId : Str) (chatId : Int) (now : Nat) (st : Store) :
    ConversationState × Store :=
  match mapGet st (getKey userId chatId) with
  | some conv =>
    ({ conv with lastActivity := now },
      mapSet st (getKey userId chatId) { conv with lastActivity := now })
  | none =>
    ({ userId := userId, chatId := chatId, step := .idle, lastActivity := now },
      mapSet st (getKey userId chatId)
        { userId := userId, chatId := chatId, step := .idle, lastActivity := now })

/-- A `Partial<ConversationState>` as passed to `updateConversation`:
`none` means the field is absent from the update object. -/
structure ConversationUpdate where
  step : Option Step := none
  topic : Option Str := none
  generatedTitles : Option (List ArticleTitle) := none
  selectedTitle : Option Str := none
  generatedOutline : Option ArticleOutline := none
deriving DecidableEq, Repr

/-- The `Object.assign(conversation, updates, \x7b lastActivity \x7d)` merge. -/
def applyUpdate (conv : ConversationState) (upd : ConversationUpdate) (now : Nat) :
    ConversationState :=
  { conv with
    step := upd.step.getD conv.step
    topic := match upd.topic with | some t => some t | none => conv.topic
    generatedTitles :=
      match upd.generatedTitles with | some t => some t | none => conv.generatedTitles
    selectedTitle :=
      match upd.selectedTitle with | some t => some t | none => conv.selectedTitle
    generatedOutline :=
      match upd.generatedOutline with | some o => some o | none => conv.generatedOutline
    lastActivity := now }

/-- `ConversationManager.updateConversation`. -/
def updateConversation (userId : Str) (chatId : Int) (upd : ConversationUpdate)
    (now : Nat) (st : Store) : Store :=
  mapSet (getConversation userId chatId now st).2 (getKey userId chatId)
    (applyUpdate (getConversation userId chatId now st).1 upd now)

/-- The synchronous check-and-set core of `ConversationManager.tryAcquireLock`
(the awaited per-key promise only serializes entry into this section). -/
def tryAcquireLock (userId : Str) (chatId : Int) (task : Task) (now : Nat)
    (st : Store) : Bool × Store :=
  if (getConversation userId chatId now st).1.isProcessing then
    (false, (getConversation userId chatId now st).2)
  else
    (true, mapSet (getConversation userId chatId now st).2 (getKey userId chatId)
      { (getConversation userId chatId now st).1 with
        isProcessing := true
        processingTask := some task
        lockAcquiredAt := some now
        lastActivity := now })

/-- `ConversationManager.releaseLock`. -/
def releaseLock (userId : Str) (chatId : Int) (now : Nat) (st : Store) : Store :=
  match mapGet st (getKey userId chatId) with
  | some conv =>
    mapSet st (getKey userId chatId)
      { conv with
        isProcessing := false
        processingTask := none
        lockAcquiredAt := none
        lastActivity := now }
  | none => st

/-- `ConversationManager.resetConversation`. -/
def resetConversation (userId : Str) (chatId : Int) (st : Store) : Store :=
  mapDelete st (getKey userId chatId)

/-- The per-conversation body of `ConversationManager.cleanupStaleLocks`:
clear the processing fields when the lock has been held longer than
`lockTimeoutMs = 600000`. -/
def staleClean (now : Nat) (conv : ConversationState) : ConversationState :=
  match conv.lockAcquiredAt with
  | some t =>
    if conv.isProcessing ∧ now - t > 600000 then
      { conv with
        isProcessing := false
        processingTask := none
        lockAcquiredAt := none
        lastActivity := now }
    else conv
  | none => conv

/-- `ConversationManager.cleanupStaleLocks`: reclaim locks held longer
than `lockTimeoutMs = 600000`. -/
def cleanupStaleLocks (now : Nat) (st : Store) : Store :=
  st.map fun e => (e.1, staleClean now e.2)

/-! ### Rate limiter (src/utils/rateLimiter.ts) -/

/-- `RateLimitInfo`. -/
structure RateLimitInfo where
  userId : Str
  requestCount : Nat
  windowStart : Nat
deriving DecidableEq, Repr

/-- The `limits` map of `RateLimiter`. -/
abbrev RateState := List (Str × RateLimitInfo)

/-- `RateLimiter.checkLimit`.  `enabled` and `maxRequestsPerMinute` stand
for `config.rateLimit.enabled` / `config.rateLimit.maxRequestsPerMinute`,
and `now` for `Date.now()`.  Returns the `allowed` flag, the optional
`retryAfter` (seconds), and the updated map. -/
def checkLimit (enabled : Bool) (maxRequestsPerMinute : Nat) (now : Nat)
    (userId : Str) (st : RateState) : Bool × Option Nat × RateState :=
  if ¬enabled then (true, none, st)
  else
    let windowDuration := 60000
    let userLimit :=
      match mapGet st userId with
      | some l => l
      | none => { userId := userId, requestCount := 0, windowStart := now }
    let userLimit :=
      if now - userLimit.windowStart ≥ windowDuration then
        { userLimit with requestCount := 0, windowStart := now }
      else userLimit
    if userLimit.requestCount ≥ maxRequestsPerMinute then
      let retryAfter := (windowDuration - (now - userLimit.windowStart) + 999) / 1000
      (false, some retryAfter, mapSet st userId userLimit)
    else
      (true, none,
        mapSet st userId { userLimit with requestCount := userLimit.requestCount + 1 })

/-! ### Input validation (src/utils/validation.ts) -/

/-- `ValidationResult`. -/
structure ValidationResult where
  valid : Bool
  error : Option Str := none
deriving DecidableEq, Repr

/-- `validateTopic`. -/
def validateTopic (topic : Str) : ValidationResult :=
  if topic = [] ∨ (jsTrim topic).length = 0 then
    { valid := false, error := some "Chủ đề không được để trống.".data }
  else if topic.length < 5 then
    { valid := false,
      error := some "Chủ đề quá ngắn. Vui lòng nhập ít nhất 5 ký tự.".data }
  else if topic.length > 200 then
    { valid := false,
      error := some "Chủ đề quá dài. Vui lòng nhập tối đa 200 ký tự.".data }
  else { valid := true }

/-- The zero-width characters stripped by `sanitizeInput`
(`U+200B`–`U+200D` and `U+FEFF`). -/
def isZeroWidth (c : Char) : Bool :=
  (0x200B ≤ c.toNat ∧ c.toNat ≤ 0x200D) ∨ c.toNat = 0xFEFF

/-- `sanitizeInput`: trim, strip zero-width characters, then apply
Unicode NFC normalization.  `nfc` abstracts the platform primitive
`String.prototype.normalize`. -/
def sanitizeInput (nfc : Str → Str) (input : Str) : Str :=
  if input = [] then []
  else nfc ((jsTrim input).filter (fun c => ¬isZeroWidth c))

/-! ### Webhook payloads (src/utils/webhook.ts) -/

/-- A JSON-like value, used for the dynamically-typed (`any`) payload
data the webhook sender transmits. -/
inductive JVal
  | str (s : Str)
  | num (n : Int)
  | boolean (b : Bool)
  | null
  | arr (elems : List JVal)
  | obj (fields : List (Str × JVal))

/-- JS truthiness of a `JVal`. -/
def JVal.truthy : JVal → Bool
  | .str s => s ≠ []
  | .num n => n ≠ 0
  | .boolean b => b
  | .null => false
  | .arr _ => true
  | .obj _ => true

/-- JS property access `v.f`: `undefined` (here `none`) unless `v` is an
object with the field. -/
def JVal.getField : JVal → Str → Option JVal
  | .obj fields, f => mapGet fields f
  | _, _ => none

/-- The JS typeof-object test (true for objects, arrays and `null`). -/
def JVal.typeofObject : JVal → Bool
  | .obj _ => true
  | .arr _ => true
  | .null => true
  | _ => false

/-- `WebhookPayload`. -/
structure WebhookPayload where
  type : Str
  data : JVal
  userId : Str
  chatId : Int

/-- `validateWebhookPayload`: `.ok` when the payload passes, `.error`
with the thrown message otherwise. -/
def validateWebhookPayload (payload : WebhookPayload) : Except Str Unit :=
  if payload.type = [] ∨ (payload.type ≠ "outline".data ∧ payload.type ≠ "article".data) then
    .error "Invalid payload type. Must be \"outline\" or \"article\"".data
  else if ¬payload.data.truthy then
    .error "Payload data is null or undefined".data
  else if payload.userId = [] then
    .error "Invalid userId in payload".data
  else if payload.chatId = 0 then
    .error "Invalid chatId in payload".data
  else if payload.type = "outline".data then
    match payload.data.getField "outline".data with
    | some v => if v.truthy ∧ v.typeofObject then .ok () else
        .error "Invalid outline data structure".data
    | none => .error "Invalid outline data structure".data
  else
    match payload.data.getField "article".data with
    | some v => if v.truthy ∧ v.typeofObject then .ok () else
        .error "Invalid article data structure".data
    | none => .error "Invalid article data structure".data

/-! ### Generic retry helper (src/utils/retry.ts) -/

/-- Trace of a retrying loop: its final outcome, the number of attempts
actually executed, and the delays slept between consecutive attempts. -/
structure RetryTrace (α : Type) where
  result : Except Str α
  attempts : Nat
  delays : List Nat
deriving Repr

/-- The loop body of `withRetry`, unrolled over the outcome `f attempt`
of each invocation (`attempt` counts from 0 as in the source;
`remaining` is the number of retries still available,
`maxRetries - attempt`, so the recursion is structural). -/
def withRetryGo (f : Nat → Except Str α) (baseDelay maxDelay : Nat) :
    Nat → Nat → RetryTrace α
  | attempt, remaining =>
    match f attempt with
    | .ok v => ⟨.ok v, attempt + 1, []⟩
    | .error e =>
      match remaining with
      | 0 => ⟨.error e, attempt + 1, []⟩
      | r + 1 =>
        let d := if baseDelay = maxDelay then baseDelay
                 else min (baseDelay * 2 ^ attempt) maxDelay
        let t := withRetryGo f baseDelay maxDelay (attempt + 1) r
        ⟨t.result, t.attempts, d :: t.delays⟩

/-- `withRetry`: run `f` with up to `maxRetries` retries after the
initial attempt (the source loop is `for attempt = 0; attempt <= maxRetries`). -/
def withRetryRun (f : Nat → Except Str α) (maxRetries baseDelay maxDelay : Nat) :
    RetryTrace α :=
  withRetryGo f baseDelay maxDelay 0 maxRetries

/-! ### Webhook sender (src/utils/webhook.ts) -/

/-- Outcome of one `axios.post` to the delivery endpoint.  `response`
is a resolved response (axios resolves 2xx statuses by default);
`httpError` is a rejection that carries a response (non-2xx status);
the rest are transport-level rejections distinguished by the code. -/
inductive PostOutcome
  | response (status : Int)
  | connRefused
  | timedOut
  | httpError (status : Int) (msg : Str)
  | otherError (msg : Str)

/-- The body of one delivery attempt: the error-mapping `try/catch`
around `axios.post`, plus the `status !== 200` check. -/
def webhookAttempt (o : PostOutcome) : Except Str Int :=
  match o with
  | .response s =>
    if s ≠ 200 then
      .error ("Webhook failed with status code ".data ++ (toString s).data)
    else .ok s
  | .connRefused => .error "Webhook server connection refused".data
  | .timedOut => .error "Webhook request timeout".data
  | .httpError _ m => .error m
  | .otherError m => .error m

/-- Trace of one `sendWebhookWithRetry` call: whether validation passed,
the JSON body of every POST attempt made, the attempt count and delays,
how many failure notifications the user received, and the error (if any)
that escaped to the caller. -/
structure SendTrace where
  validated : Bool
  bodies : List JVal
  attempts : Nat
  delays : List Nat
  notifications : Nat
  escaped : Option Str

/-- `sendWebhookWithRetry`, with the network abstracted by `post`
(the outcome of the i-th `axios.post`).  Every attempt POSTs
`payload.data` as its body — the second argument of `axios.post`. -/
def sendWebhookWithRetryRun (post : Nat → PostOutcome) (payload : WebhookPayload) :
    SendTrace :=
  match validateWebhookPayload payload with
  | .error e =>
    { validated := false, bodies := [], attempts := 0, delays := []
      notifications := 1
      escaped := some ("Invalid webhook payload: ".data ++ e) }
  | .ok _ =>
    let t := withRetryRun (fun i => webhookAttempt (post i)) 3 3000 3000
    { validated := true
      bodies := List.replicate t.attempts payload.data
      attempts := t.attempts
      delays := t.delays
      notifications := match t.result with | .ok _ => 0 | .error _ => 1
      escaped := none }

/-! ### Provider router (src/services/ai/claudeService.ts, AIRouter part) -/

/-- The transient-error classification inlined in `AIRouter.tryPrimaryProvider`
(substring tests on the lower-cased error message). -/
def isTransientError (msg : Str) : Bool :=
  let m := jsLower msg
  containsSub "connection".data m || containsSub "terminated".data m ||
    containsSub "socket".data m || containsSub "rate limit".data m ||
    containsSub "429".data m || containsSub "500".data m ||
    containsSub "502".data m || containsSub "503".data m

/-- `AIRouter.tryPrimaryProvider`: up to 2 attempts, a single retry after
a fixed 2000 ms delay and only when the first failure is transient.
`calls i` is the outcome of the i-th provider invocation. -/
def tryPrimaryProviderRun (calls : Nat → Except Str α) : RetryTrace α :=
  match calls 0 with
  | .ok v => ⟨.ok v, 1, []⟩
  | .error e1 =>
    if isTransientError e1 then
      match calls 1 with
      | .ok v => ⟨.ok v, 2, [2000]⟩
      | .error e2 => ⟨.error e2, 2, [2000]⟩
    else ⟨.error e1, 1, []⟩

/-- The loop body of `AIRouter.tryProviderWithRetry` (`attempt` counts
from 1 as in the source; the delay before attempt n+1 is 2^n seconds;
`remaining` is `maxRetries - attempt`, making the recursion structural). -/
def providerRetryGo (calls : Nat → Except Str α) :
    Nat → Nat → RetryTrace α
  | attempt, remaining =>
    match calls (attempt - 1) with
    | .ok v => ⟨.ok v, attempt, []⟩
    | .error e =>
      match remaining with
      | 0 => ⟨.error e, attempt, []⟩
      | r + 1 =>
        let t := providerRetryGo calls (attempt + 1) r
        ⟨t.result, t.attempts, (2 ^ attempt * 1000) :: t.delays⟩

/-- `AIRouter.tryProviderWithRetry`: up to `maxRetries` attempts with
exponential backoff delays of 2^attempt seconds, retrying every failure. -/
def tryProviderWithRetryRun (calls : Nat → Except Str α) (maxRetries : Nat) :
    RetryTrace α :=
  providerRetryGo calls 1 (maxRetries - 1)

/-- Trace of one `AIRouter.generateJSON` request: the provider-tagged
result plus the primary and (when entered) backup attempt traces. -/
structure RouterRun (α : Type) where
  result : Except Str (α × Str)
  primaryTrace : RetryTrace α
  backupTrace : Option (RetryTrace α)
deriving Repr

/-- `AIRouter.generateJSON`: primary path, then — only if the primary
path is terminal and `config.ai.backupAI` is set — the backup path with
3 attempts; exhaustion of both raises the combined error, and a
disabled backup propagates the primary error unchanged. -/
def generateJSONRun (primaryName backupName : Str) (backupEnabled : Bool)
    (primaryCalls backupCalls : Nat → Except Str α) : RouterRun α :=
  let p := tryPrimaryProviderRun primaryCalls
  match p.result with
  | .ok v => ⟨.ok (v, primaryName), p, none⟩
  | .error primaryError =>
    if backupEnabled then
      let b := tryProviderWithRetryRun backupCalls 3
      match b.result with
      | .ok v => ⟨.ok (v, backupName), p, some b⟩
      | .error backupError =>
        ⟨.error ("All AI providers failed. ".data ++ primaryName ++ ": ".data ++
            primaryError ++ ", ".data ++ backupName ++ ": ".data ++ backupError),
          p, some b⟩
    else ⟨.error primaryError, p, none⟩

/-! ### Provider client JSON extraction (ClaudeService.parseJSONResponse) -/

/-- The opening-brace character, `\x7b`. -/
def lbrace : Char := Char.ofNat 123

/-- The closing-brace character, `\x7d`. -/
def rbrace : Char := Char.ofNat 125

/-- JS `String.indexOf` for a single character. -/
def firstIdx (c : Char) (s : Str) : Option Nat := s.findIdx? (· = c)

/-- JS `String.lastIndexOf` for a single character. -/
def lastIdx (c : Char) (s : Str) : Option Nat :=
  (s.reverse.findIdx? (· = c)).map (fun j => s.length - 1 - j)

/-- JS `String.substring i j` (characters of positions `[i, j)`). -/
def jsSubstring (s : Str) (i j : Nat) : Str := (s.take j).drop i

/-- Capture of the fallback fenced-block pattern
(the first ` ``` ` fence up to the next ` ``` `), trimmed. -/
def genericFenceCapture (content : Str) : Option Str :=
  match findSub "```".data content with
  | some i =>
    let after := content.drop (i + 3)
    match findSub "```".data after with
    | some j => some (jsTrim (after.take j))
    | none => none
  | none => none

/-- Capture of `content.match(A) || content.match(B)` where A is the
` ```json ` fenced pattern and B the bare ` ``` ` fenced pattern: the
trimmed text between the first fence and the following closing fence. -/
def codeBlockCapture (content : Str) : Option Str :=
  match findSub "```json".data content with
  | some i =>
    let after := content.drop (i + 7)
    match findSub "```".data after with
    | some j => some (jsTrim (after.take j))
    | none => genericFenceCapture content
  | none => genericFenceCapture content

/-- `ClaudeService.parseJSONResponse`, with the platform `JSON.parse`
abstracted as `jsonParse` (`none` models a parse exception).  The four
strategies are tried in source order; the fall-through of each failed
strategy is the pushed-error-and-continue of the source. -/
def parseJSONResponse (jsonParse : Str → Option α) (content : Str) : Except Str α :=
  match (codeBlockCapture content).bind jsonParse with
  | some v => .ok v
  | none =>
    match jsonParse (jsTrim content) with
    | some v => .ok v
    | none =>
      let s3 :=
        match firstIdx lbrace content, lastIdx rbrace content with
        | some i, some j =>
          if i < j then jsonParse (jsSubstring content i (j + 1)) else none
        | _, _ => none
      match s3 with
      | some v => .ok v
      | none =>
        let s4 :=
          match firstIdx '[' content, lastIdx ']' content with
          | some i, some j =>
            if i < j then jsonParse (jsSubstring content i (j + 1)) else none
          | _, _ => none
        match s4 with
        | some v => .ok v
        | none => .error "Invalid JSON response from Claude".data

/-- The specification's reading of `parseStructured`: the ordered list
of extraction strategies — (a) fenced code block, (b) whole trimmed
text, (c) first `\x7b` to last `\x7d`, (d) first `[` to last `]` — of
which the first that parses successfully wins. -/
def parseSpecStrategies (jsonParse : Str → Option α) (content : Str) :
    List (Option α) :=
  [ (codeBlockCapture content).bind jsonParse
  , jsonParse (jsTrim content)
  , (match firstIdx lbrace content, lastIdx rbrace content with
     | some i, some j =>
       if i < j then jsonParse (jsSubstring content i (j + 1)) else none
     | _, _ => none)
  , (match firstIdx '[' content, lastIdx ']' content with
     | some i, some j =>
       if i < j then jsonParse (jsSubstring content i (j + 1)) else none
     | _, _ => none) ]

/-- First successful strategy, per the specification's wording. -/
def parseSpecFirstSuccess (jsonParse : Str → Option α) (content : Str) : Option α :=
  (parseSpecStrategies jsonParse content).findSome? id

/-! ### Dialogue controller, topic input (TelegramController.handleTopicInput) -/

/-- Trace of one `handleTopicInput` call: final conversation store,
messages sent to the user, number of provider (title-generation) calls,
whether the processing lock was acquired, and the error (if any)
re-thrown to `handleMessage`. -/
structure TopicRun where
  store : Store
  messages : List Str
  providerCalls : Nat
  lockAcquired : Bool
  escaped : Option Str
deriving DecidableEq, Repr

/-- `TelegramController.handleTopicInput`, with the title-generation
stage abstracted by its outcome `titlesCall` and Unicode NFC
normalization by `nfc`.  Message formatting the transport performs on
success/contention is abbreviated to the leading text of each message;
the validation-error message is modelled exactly. -/
def handleTopicInputRun (titlesCall : Except Str (List ArticleTitle))
    (nfc : Str → Str) (userId : Str) (chatId : Int) (topic : Str) (now : Nat)
    (st : Store) : TopicRun :=
  let sanitizedTopic := sanitizeInput nfc topic
  let validation := validateTopic sanitizedTopic
  if ¬validation.valid then
    { store := st
      messages := ["❌ ".data ++ validation.error.getD []]
      providerCalls := 0
      lockAcquired := false
      escaped := none }
  else
    let acq := tryAcquireLock userId chatId .titles now st
    if ¬acq.1 then
      let got := getConversation userId chatId now acq.2
      { store := got.2
        messages := ["⏳ Bot đang xử lý yêu cầu trước".data]
        providerCalls := 0
        lockAcquired := false
        escaped := none }
    else
      let st₂ := updateConversation userId chatId
        { topic := some sanitizedTopic, step := some .waiting_title_selection } now acq.2
      let progressMsg := "✅ Chủ đề: ".data ++ sanitizedTopic ++
        " — đang tạo 10 tiêu đề bài viết".data
      match titlesCall with
      | .ok titles =>
        let st₃ := updateConversation userId chatId
          { generatedTitles := some titles } now st₂
        let st₄ := releaseLock userId chatId now st₃
        { store := st₄
          messages := [progressMsg, "«danh sách tiêu đề + thống kê»".data]
          providerCalls := 1
          lockAcquired := true
          escaped := none }
      | .error e =>
        if containsSub "timeout".data e then
          let st₃ := resetConversation userId chatId st₂
          let st₄ := releaseLock userId chatId now st₃
          { store := st₄
            messages := [progressMsg, "⏰ Timeout".data]
            providerCalls := 1
            lockAcquired := true
            escaped := none }
        else
          let st₃ := releaseLock userId chatId now st₂
          { store := st₃
            messages := [progressMsg]
            providerCalls := 1
            lockAcquired := true
            escaped := some e }

/-! ### Lock-operation traces (for the mutual-exclusion protocol) -/

/-- One lock operation on the conversation store, with its `new Date()`
timestamp. -/
inductive LockOp
  | tryAcquire (userId : Str) (chatId : Int) (task : Task) (now : Nat)
  | release (userId : Str) (chatId : Int) (now : Nat)
deriving DecidableEq, Repr

/-- Execute one lock operation; `tryAcquire` also reports its boolean
result. -/
def lockStep (op : LockOp) (st : Store) : Store × Option Bool :=
  match op with
  | .tryAcquire u c task now =>
    let r := tryAcquireLock u c task now st
    (r.2, some r.1)
  | .release u c now => (releaseLock u c now st, none)

/-- Run a sequence of lock operations. -/
def runLockOps : List LockOp → Store → Store
  | [], st => st
  | op :: rest, st => runLockOps rest (lockStep op st).1

/-- No `releaseLock` for conversation key `k` occurs in the sequence. -/
def noReleaseOn (k : Str) : List LockOp → Bool
  | [] => true
  | .release u c _ :: rest => getKey u c ≠ k && noReleaseOn k rest
  | .tryAcquire _ _ _ _ :: rest => noReleaseOn k rest

/-- Every `tryAcquireLock` for key `k` in the sequence (run from `st`)
returns `false`. -/
def allAcquiresOnKeyFail (k : Str) : List LockOp → Store → Bool
  | [], _ => true
  | op :: rest, st =>
    let s := lockStep op st
    (match op, s.2 with
     | .tryAcquire u c _ _, some b => if getKey u c = k then !b else true
     | _, _ => true) && allAcquiresOnKeyFail k rest s.1

/-- The conversation at key `k` is processing `task`. -/
def lockedWith (k : Str) (task : Task) (st : Store) : Bool :=
  match mapGet st k with
  | some conv => conv.isProcessing && conv.processingTask = some task
  | none => false

/-! ## Helper lemmas about the retry loops -/

theorem withRetryGo_attempts_ge (f : Nat → Except Str α) (b m a r : Nat) :
    a + 1 ≤ (withRetryGo f b m a r).attempts := by
  induction r generalizing a with
  | zero => unfold withRetryGo; cases f a <;> simp
  | succ r ih =>
    unfold withRetryGo
    cases f a with
    | ok v => simp
    | error e =>
      simp only
      have := ih (a + 1)
      omega

theorem withRetryGo_attempts_le (f : Nat → Except Str α) (b m a r : Nat) :
    (withRetryGo f b m a r).attempts ≤ a + r + 1 := by
  induction r generalizing a with
  | zero => unfold withRetryGo; cases f a <;> simp
  | succ r ih =>
    unfold withRetryGo
    cases f a with
    | ok v => simp
    | error e =>
      simp only
      have := ih (a + 1)
      omega

theorem withRetryGo_delays_fixed (f : Nat → Except Str α) (b a r : Nat) :
    (withRetryGo f b b a r).delays =
      List.replicate ((withRetryGo f b b a r).attempts - (a + 1)) b := by
  induction r generalizing a with
  | zero => unfold withRetryGo; cases f a <;> simp
  | succ r ih =>
    unfold withRetryGo
    cases f a with
    | ok v => simp
    | error e =>
      simp only
      have hge := withRetryGo_attempts_ge f b b (a + 1) r
      have heq :
          (withRetryGo f b b (a + 1) r).attempts - (a + 1) =
            ((withRetryGo f b b (a + 1) r).attempts - (a + 2)) + 1 := by omega
      rw [ih (a + 1), heq, List.replicate_succ]
      simp

theorem withRetryGo_all_fail (f : Nat → Except Str α) (b m a r : Nat)
    (h : ∀ i, a ≤ i → i ≤ a + r → ∃ e, f i = .error e) :
    (withRetryGo f b m a r).attempts = a + r + 1 ∧
      ∃ e, (withRetryGo f b m a r).result = .error e := by
  induction r generalizing a with
  | zero =>
    obtain ⟨e, he⟩ := h a (Nat.le_refl a) (by omega)
    unfold withRetryGo
    rw [he]
    exact ⟨rfl, e, rfl⟩
  | succ r ih =>
    obtain ⟨e, he⟩ := h a (Nat.le_refl a) (by omega)
    unfold withRetryGo
    rw [he]
    have := ih (a + 1) (fun i h1 h2 => h i (by omega) (by omega))
    simp only
    exact ⟨by omega, this.2⟩

/-! ## C3: webhook delivery retry policy -/

/-- The webhook payload exactly as documented in the repository README
("Webhook Payload", outline shape). -/
def readmeOutlinePayload : WebhookPayload :=
  { type := "outline".data
    data := .obj
      [ ("outline".data, .obj
          [ ("inference".data, .obj
              [ ("targetKeyword".data, .str "từ khóa mục tiêu".data)
              , ("targetAudience".data, .str "đối tượng mục tiêu".data)
              , ("contentPurpose".data, .str "mục đích nội dung".data)
              , ("estimatedWordCount".data, .str "2000-2500 từ".data) ])
          , ("outline".data, .arr
              [ .obj
                  [ ("heading".data, .str "Tiêu đề chính".data)
                  , ("subheadings".data,
                      .arr [.str "Tiêu đề phụ 1".data, .str "Tiêu đề phụ 2".data])
                  , ("notes".data, .str "Ghi chú".data) ] ]) ]) ]
    userId := "123456789".data
    chatId := 123456789 }

/-- Delivery endpoint that rejects every POST with an HTTP 500. -/
def webhookAllFailPost : Nat → PostOutcome :=
  fun _ => .httpError 500 "Request failed with status code 500".data

/-- C3, counterexample: on a validated payload whose every delivery
attempt fails, `sendWebhookWithRetry` makes 4 attempts (the initial
attempt plus `maxRetries = 3` retries), not at most 3 as claimed; it
still produces exactly one user notification and lets nothing escape. -/
theorem claim_C3_counterexample :
    validateWebhookPayload readmeOutlinePayload = .ok () ∧
    (sendWebhookWithRetryRun webhookAllFailPost readmeOutlinePayload).attempts = 4 ∧
    (sendWebhookWithRetryRun webhookAllFailPost readmeOutlinePayload).notifications = 1 ∧
    (sendWebhookWithRetryRun webhookAllFailPost readmeOutlinePayload).escaped = none :=
  ⟨rfl, rfl, rfl, rfl⟩

/-- C3 (amended): for every payload that passes webhook validation,
`sendWebhookWithRetry` makes at most 4 delivery attempts (1 initial + 3
retries) with a fixed 3-second delay between consecutive attempts; any
non-200 response (hence any non-2xx response) or transport error counts
as a failed attempt; when every attempt fails it produces exactly one
user failure notification; and no exception escapes to its caller. -/
theorem claim_C3_delivery_retry_policy (post : Nat → PostOutcome)
    (payload : WebhookPayload) (hval : validateWebhookPayload payload = .ok ()) :
    (sendWebhookWithRetryRun post payload).attempts ≤ 4 ∧
    (sendWebhookWithRetryRun post payload).delays =
      List.replicate ((sendWebhookWithRetryRun post payload).attempts - 1) 3000 ∧
    (sendWebhookWithRetryRun post payload).escaped = none ∧
    (sendWebhookWithRetryRun post payload).bodies =
      List.replicate ((sendWebhookWithRetryRun post payload).attempts) payload.data ∧
    ((∀ i, i ≤ 3 → ∃ e, webhookAttempt (post i) = .error e) →
      (sendWebhookWithRetryRun post payload).attempts = 4 ∧
        (sendWebhookWithRetryRun post payload).notifications = 1) ∧
    (∀ s : Int, s ≠ 200 → ∃ e, webhookAttempt (.response s) = .error e) := by
  have hrun : sendWebhookWithRetryRun post payload =
      { validated := true
        bodies := List.replicate
          (withRetryRun (fun i => webhookAttempt (post i)) 3 3000 3000).attempts
          payload.data
        attempts := (withRetryRun (fun i => webhookAttempt (post i)) 3 3000 3000).attempts
        delays := (withRetryRun (fun i => webhookAttempt (post i)) 3 3000 3000).delays
        notifications :=
          match (withRetryRun (fun i => webhookAttempt (post i)) 3 3000 3000).result with
          | .ok _ => 0 | .error _ => 1
        escaped := none } := by
    unfold sendWebhookWithRetryRun
    rw [hval]
  refine ⟨?_, ?_, ?_, ?_, ?_, ?_⟩
  · rw [hrun]
    exact withRetryGo_attempts_le _ 3000 3000 0 3
  · rw [hrun]
    exact withRetryGo_delays_fixed _ 3000 0 3
  · rw [hrun]
  · rw [hrun]
  · intro hfail
    have := withRetryGo_all_fail (fun i => webhookAttempt (post i)) 3000 3000 0 3
      (fun i _ h2 => hfail i (by omega))
    obtain ⟨hatt, e, he⟩ := this
    rw [hrun]
    refine ⟨hatt, ?_⟩
    simp only [withRetryRun] at he ⊢
    rw [he]
  · intro s hs
    refine ⟨"Webhook failed with status code ".data ++ (toString s).data, ?_⟩
    simp [webhookAttempt, hs]

/-- C3, witness: the amended retry policy evaluated on the documented
payload against an endpoint that always fails — 3 fixed 3-second delays
and at most 4 attempts. -/
theorem claim_C3_delivery_retry_policy_witness :
    (sendWebhookWithRetryRun webhookAllFailPost readmeOutlinePayload).delays =
      List.replicate 3 3000 ∧
    (sendWebhookWithRetryRun webhookAllFailPost readmeOutlinePayload).attempts ≤ 4 := by
  have h := claim_C3_delivery_retry_policy webhookAllFailPost readmeOutlinePayload rfl
  refine ⟨?_, h.1⟩
  have ha := (h.2.2.2.2.1 (fun i _ => ⟨_, rfl⟩)).1
  rw [h.2.1, ha]

/-! ## C4: primary-provider retry policy -/

/-- Primary provider failing once with an HTTP 504 (an HTTP 5xx status
the inlined classifier does not recognize), then succeeding. -/
def calls504 : Nat → Except Str Nat :=
  fun i => if i = 0 then .error "Claude API error: 504 Gateway Timeout".data
           else .ok 0

/-- C4, counterexample: the first primary failure is an HTTP 5xx (504)
failure and the second invocation would succeed, yet no second attempt
occurs — `tryPrimaryProvider` terminates after 1 attempt because its
classifier only matches the substrings 500/502/503 (besides
connection/terminated/socket/rate limit/429), not every 5xx status. -/
theorem claim_C4_counterexample :
    isTransientError "Claude API error: 504 Gateway Timeout".data = false ∧
    calls504 1 = .ok 0 ∧
    (tryPrimaryProviderRun calls504).attempts = 1 ∧
    (tryPrimaryProviderRun calls504).result =
      .error "Claude API error: 504 Gateway Timeout".data :=
  ⟨rfl, rfl, rfl, rfl⟩

/-- C4 (amended): the primary provider is attempted at most 2 times; a
second attempt occurs exactly when the first failure's message (lower
cased) contains one of the substrings `connection`, `terminated`,
`socket`, `rate limit`, `429`, `500`, `502`, `503` — i.e. among HTTP
statuses only 500/502/503, not every 5xx — and is preceded by a fixed
2-second delay; any other failure, or a second failed attempt,
terminates the primary path with no further primary attempts. -/
theorem claim_C4_primary_retry_policy (calls : Nat → Except Str α) :
    (tryPrimaryProviderRun calls).attempts ≤ 2 ∧
    (∀ v, calls 0 = .ok v →
      tryPrimaryProviderRun calls = ⟨.ok v, 1, []⟩) ∧
    (∀ e, calls 0 = .error e → isTransientError e = false →
      tryPrimaryProviderRun calls = ⟨.error e, 1, []⟩) ∧
    (∀ e, calls 0 = .error e → isTransientError e = true →
      (tryPrimaryProviderRun calls).attempts = 2 ∧
      (tryPrimaryProviderRun calls).delays = [2000] ∧
      (∀ v, calls 1 = .ok v → (tryPrimaryProviderRun calls).result = .ok v) ∧
      (∀ e2, calls 1 = .error e2 →
        (tryPrimaryProviderRun calls).result = .error e2)) := by
  refine ⟨?_, ?_, ?_, ?_⟩
  · unfold tryPrimaryProviderRun
    cases h0 : calls 0 with
    | ok v => simp
    | error e =>
      by_cases ht : isTransientError e
      · cases h1 : calls 1 <;> simp [ht]
      · simp [ht]
  · intro v h0
    unfold tryPrimaryProviderRun
    rw [h0]
  · intro e h0 ht
    unfold tryPrimaryProviderRun
    rw [h0]
    simp [ht]
  · intro e h0 ht
    unfold tryPrimaryProviderRun
    rw [h0]
    simp only [ht, if_true]
    cases h1 : calls 1 with
    | ok v => simp
    | error e2 => simp

/-- C4, witness: a transient first failure (`Connection reset`) is
retried once after a 2-second delay and the second attempt's success is
returned. -/
theorem claim_C4_primary_retry_policy_witness :
    (tryPrimaryProviderRun
        (fun i => if i = 0 then .error "Claude API error: Connection reset".data
                  else .ok 7)).attempts = 2 ∧
    (tryPrimaryProviderRun
        (fun i => if i = 0 then .error "Claude API error: Connection reset".data
                  else .ok 7)).delays = [2000] ∧
    (tryPrimaryProviderRun
        (fun i => if i = 0 then .error "Claude API error: Connection reset".data
                  else .ok 7)).result = .ok 7 := by
  have h := claim_C4_primary_retry_policy
    (fun i => if i = 0 then .error "Claude API error: Connection reset".data
              else .ok 7)
  have h4 := h.2.2.2 "Claude API error: Connection reset".data rfl rfl
  exact ⟨h4.1, h4.2.1, h4.2.2.1 7 rfl⟩

/-! ## C5: backup-provider policy and combined failure -/

theorem providerRetryGo_attempts_le (calls : Nat → Except Str α) (a r : Nat) :
    (providerRetryGo calls a r).attempts ≤ a + r := by
  induction r generalizing a with
  | zero => unfold providerRetryGo; cases calls (a - 1) <;> simp
  | succ r ih =>
    unfold providerRetryGo
    cases calls (a - 1) with
    | ok v => simp
    | error e =>
      simp only
      have := ih (a + 1)
      omega

/-- C5: when the primary path ends in terminal failure, an enabled
backup is attempted up to 3 times with exponential backoff delays of
2s then 4s, any failure kind being retried up to the budget; if the
backup also exhausts, the raised error is the combined message
embedding both providers' final errors; if the backup is disabled, the
primary error is propagated unchanged. -/
theorem claim_C5_backup_policy (pn bn : Str) (pc bc : Nat → Except Str α)
    (pe : Str) (hp : (tryPrimaryProviderRun pc).result = .error pe) :
    (generateJSONRun pn bn false pc bc).result = .error pe ∧
    (generateJSONRun pn bn false pc bc).backupTrace = none ∧
    (generateJSONRun pn bn true pc bc).backupTrace =
      some (tryProviderWithRetryRun bc 3) ∧
    (tryProviderWithRetryRun bc 3).attempts ≤ 3 ∧
    (∀ e0 e1 e2, bc 0 = .error e0 → bc 1 = .error e1 → bc 2 = .error e2 →
      tryProviderWithRetryRun bc 3 = ⟨.error e2, 3, [2000, 4000]⟩ ∧
      (generateJSONRun pn bn true pc bc).result =
        .error ("All AI providers failed. ".data ++ pn ++ ": ".data ++ pe ++
          ", ".data ++ bn ++ ": ".data ++ e2)) := by
  refine ⟨?_, ?_, ?_, ?_, ?_⟩
  · simp [generateJSONRun, hp]
  · simp [generateJSONRun, hp]
  · simp only [generateJSONRun, hp]
    cases hb : (tryProviderWithRetryRun bc 3).result <;> simp [hb]
  · have h := providerRetryGo_attempts_le bc 1 2
    unfold tryProviderWithRetryRun
    norm_num
    exact h
  · intro e0 e1 e2 h0 h1 h2
    have s3 : providerRetryGo bc 3 0 = ⟨.error e2, 3, []⟩ := by
      unfold providerRetryGo
      norm_num [h2]
    have s2 : providerRetryGo bc 2 1 = ⟨.error e2, 3, [4000]⟩ := by
      unfold providerRetryGo
      norm_num [h1, s3]
    have s1 : providerRetryGo bc 1 2 = ⟨.error e2, 3, [2000, 4000]⟩ := by
      unfold providerRetryGo
      norm_num [h0, s2]
    have hb : tryProviderWithRetryRun bc 3 = ⟨.error e2, 3, [2000, 4000]⟩ := by
      unfold tryProviderWithRetryRun
      norm_num [s1]
    refine ⟨hb, ?_⟩
    simp [generateJSONRun, hp, hb]

/-- C5, witness: evaluated with a primary that fails non-transiently
and a backup that fails three times — and, separately, with the backup
disabled. -/
theorem claim_C5_backup_policy_witness :
    (generateJSONRun "claude".data "openrouter".data false
        (fun _ => (.error "Claude API error: bad request".data : Except Str Nat))
        (fun _ => .error "OpenRouter API error: bad request".data)).result =
      .error "Claude API error: bad request".data ∧
    (generateJSONRun "claude".data "openrouter".data true
        (fun _ => (.error "Claude API error: bad request".data : Except Str Nat))
        (fun _ => .error "OpenRouter API error: bad request".data)).result =
      .error ("All AI providers failed. ".data ++ "claude".data ++ ": ".data ++
        "Claude API error: bad request".data ++ ", ".data ++ "openrouter".data ++
        ": ".data ++ "OpenRouter API error: bad request".data) := by
  have h := claim_C5_backup_policy "claude".data "openrouter".data
    (fun _ => (.error "Claude API error: bad request".data : Except Str Nat))
    (fun _ => .error "OpenRouter API error: bad request".data)
    "Claude API error: bad request".data rfl
  exact ⟨h.1, (h.2.2.2.2 _ _ _ rfl rfl rfl).2⟩

/-! ## C7: layered JSON extraction strategies -/

/-- C7 (amended): `parseJSONResponse` returns the value of the first
strategy — (a) fenced code block, (b) whole trimmed text, (c) first
`\x7b` to last `\x7d`, (d) first `[` to last `]` — that parses
successfully, and when all four fail it raises a parse error with the
fixed message `Invalid JSON response from Claude`; the truncated
500-character sample of the offending text goes to the log, not into
the raised error. -/
theorem claim_C7_first_successful_strategy (jsonParse : Str → Option α)
    (content : Str) :
    parseJSONResponse jsonParse content =
      match parseSpecFirstSuccess jsonParse content with
      | some v => .ok v
      | none => .error "Invalid JSON response from Claude".data := by
  simp only [parseJSONResponse, parseSpecFirstSuccess, parseSpecStrategies]
  generalize (codeBlockCapture content).bind jsonParse = s1
  generalize jsonParse (jsTrim content) = s2
  generalize (match firstIdx lbrace content, lastIdx rbrace content with
    | some i, some j =>
      if i < j then jsonParse (jsSubstring content i (j + 1)) else none
    | _, _ => none : Option α) = s3
  generalize (match firstIdx '[' content, lastIdx ']' content with
    | some i, some j =>
      if i < j then jsonParse (jsSubstring content i (j + 1)) else none
    | _, _ => none : Option α) = s4
  cases s1 <;> cases s2 <;> cases s3 <;> cases s4 <;>
    simp [List.findSome?]

/-- C7, counterexample: two different texts on which every strategy
fails (`JSON.parse` rejects each candidate, modelled by the
all-failing parse function) raise the identical fixed-message parse
error, which does not contain the offending text — so the raised error
carries no truncated sample of it. -/
theorem claim_C7_counterexample :
    parseJSONResponse (fun _ => (none : Option Nat)) "hello".data =
      .error "Invalid JSON response from Claude".data ∧
    parseJSONResponse (fun _ => (none : Option Nat)) "some other model text".data =
      .error "Invalid JSON response from Claude".data ∧
    containsSub "hello".data "Invalid JSON response from Claude".data = false :=
  ⟨rfl, rfl, rfl⟩

/-! ## C2: what the webhook sender actually POSTs -/

/-- C2 (code bug): the README-documented outline envelope passes
validation, but the body actually POSTed on each attempt is
`payload.data` — the second argument of `axios.post` — which contains
neither the `type` discriminator nor the `userId`/`chatId`
correlation fields of the documented envelope shape. -/
theorem claim_C2_posted_body_drops_envelope :
    validateWebhookPayload readmeOutlinePayload = .ok () ∧
    (sendWebhookWithRetryRun (fun _ => .response 200) readmeOutlinePayload).attempts = 1 ∧
    (sendWebhookWithRetryRun (fun _ => .response 200) readmeOutlinePayload).bodies =
      [readmeOutlinePayload.data] ∧
    JVal.getField readmeOutlinePayload.data "type".data = none ∧
    JVal.getField readmeOutlinePayload.data "userId".data = none ∧
    JVal.getField readmeOutlinePayload.data "chatId".data = none :=
  ⟨rfl, rfl, rfl, rfl, rfl, rfl⟩

/-! ## C6: rate-limit window behaviour -/

/-- Run a sequence of `checkLimit` calls for one user at the given
times, collecting each call's `(allowed, retryAfter)`. -/
def runLimiter (enabled : Bool) (maxN : Nat) (u : Str) :
    List Nat → RateState → List (Bool × Option Nat) × RateState
  | [], st => ([], st)
  | t :: rest, st =>
    (((checkLimit enabled maxN t u st).1, (checkLimit enabled maxN t u st).2.1) ::
        (runLimiter enabled maxN u rest (checkLimit enabled maxN t u st).2.2).1,
      (runLimiter enabled maxN u rest (checkLimit enabled maxN t u st).2.2).2)

theorem checkLimit_fresh (N t : Nat) (u : Str) (st : RateState)
    (h : mapGet st u = none) (hN : 0 < N) :
    checkLimit true N t u st = (true, none, mapSet st u ⟨u, 1, t⟩) := by
  have h1 : ¬(60000 ≤ t - t) := by omega
  have h2 : ¬(N ≤ 0) := by omega
  simp [checkLimit, h, h1, h2]

theorem checkLimit_in_window_allowed (N t t0 c : Nat) (u : Str) (st : RateState)
    (h : mapGet st u = some ⟨u, c, t0⟩) (hw : t < t0 + 60000) (hc : c < N) :
    checkLimit true N t u st = (true, none, mapSet st u ⟨u, c + 1, t0⟩) := by
  have h1 : ¬(60000 ≤ t - t0) := by omega
  have h2 : ¬(N ≤ c) := by omega
  simp [checkLimit, h, h1, h2]

theorem checkLimit_in_window_rejected (N t t0 c : Nat) (u : Str) (st : RateState)
    (h : mapGet st u = some ⟨u, c, t0⟩) (ht0 : t0 ≤ t) (hw : t < t0 + 60000)
    (hc : N ≤ c) :
    checkLimit true N t u st =
      (false, some ((60000 - (t - t0) + 999) / 1000), mapSet st u ⟨u, c, t0⟩) ∧
    0 < (60000 - (t - t0) + 999) / 1000 := by
  have h1 : ¬(60000 ≤ t - t0) := by omega
  constructor
  · simp [checkLimit, h, h1, hc]
  · have : 1000 ≤ 60000 - (t - t0) + 999 := by omega
    omega

theorem checkLimit_reset (N t t0 c : Nat) (u : Str) (st : RateState)
    (h : mapGet st u = some ⟨u, c, t0⟩) (hr : t0 + 60000 ≤ t) (hN : 0 < N) :
    checkLimit true N t u st = (true, none, mapSet st u ⟨u, 1, t⟩) := by
  have h1 : 60000 ≤ t - t0 := by omega
  have h2 : ¬(N ≤ 0) := by omega
  simp [checkLimit, h, h1, h2]

theorem runLimiter_window (N : Nat) (u : Str) (ts : List Nat) (t0 : Nat) :
    ∀ (c : Nat) (st : RateState), mapGet st u = some ⟨u, c, t0⟩ →
    (∀ t ∈ ts, t < t0 + 60000) → c + ts.length ≤ N →
    (runLimiter true N u ts st).1 = List.replicate ts.length (true, none) ∧
    mapGet (runLimiter true N u ts st).2 u = some ⟨u, c + ts.length, t0⟩ := by
  induction ts with
  | nil =>
    intro c st h _ _
    simpa [runLimiter] using h
  | cons t rest ih =>
    intro c st h hts hle
    have hstep := checkLimit_in_window_allowed N t t0 c u st h
      (hts t (List.mem_cons_self t rest)) (by simp at hle; omega)
    have hnext : mapGet (mapSet st u ⟨u, c + 1, t0⟩) u = some ⟨u, c + 1, t0⟩ :=
      mapGet_mapSet_self st u _
    have hrec := ih (c + 1) (mapSet st u ⟨u, c + 1, t0⟩) hnext
      (fun x hx => hts x (List.mem_cons_of_mem t hx)) (by simp at hle ⊢; omega)
    refine ⟨?_, ?_⟩
    · simp only [runLimiter, hstep, List.replicate]
      exact congrArg _ hrec.1
    · simp only [runLimiter, hstep]
      rw [hrec.2]
      have : c + 1 + rest.length = c + (rest.length + 1) := by omega
      rw [this]
      simp

/-- C6: with rate limiting enabled and a configured limit of N per
minute, a fresh user's first N `checkLimit` calls within one 60-second
window (opened by the first call) are all allowed; the (N+1)-th call
within the same window is rejected with a positive `retryAfter`; and a
call made once the window has elapsed resets the counter (the stored
count becomes 1 for the newly allowed request). -/
theorem claim_C6_rate_limit_window (N : Nat) (hN : 0 < N) (u : Str)
    (t0 : Nat) (ts : List Nat) (tLast tNew : Nat) (st0 : RateState)
    (h0 : mapGet st0 u = none)
    (hts : ∀ t ∈ ts, t < t0 + 60000)
    (hlen : ts.length + 1 = N)
    (ht0 : t0 ≤ tLast) (hLast : tLast < t0 + 60000)
    (hNew : t0 + 60000 ≤ tNew) :
    (runLimiter true N u (t0 :: ts) st0).1 = List.replicate N (true, none) ∧
    ((checkLimit true N tLast u (runLimiter true N u (t0 :: ts) st0).2).1 = false ∧
      ∃ r, (checkLimit true N tLast u
          (runLimiter true N u (t0 :: ts) st0).2).2.1 = some r ∧ 0 < r) ∧
    ((checkLimit true N tNew u
        (checkLimit true N tLast u (runLimiter true N u (t0 :: ts) st0).2).2.2).1 =
      true ∧
      mapGet (checkLimit true N tNew u
        (checkLimit true N tLast u
          (runLimiter true N u (t0 :: ts) st0).2).2.2).2.2 u = some ⟨u, 1, tNew⟩) := by
  have hfresh := checkLimit_fresh N t0 u st0 h0 hN
  have hst1 : mapGet (mapSet st0 u ⟨u, 1, t0⟩) u = some ⟨u, 1, t0⟩ :=
    mapGet_mapSet_self st0 u _
  have hwin := runLimiter_window N u ts t0 1 (mapSet st0 u ⟨u, 1, t0⟩) hst1 hts
    (by omega)
  have hrunfst : (runLimiter true N u (t0 :: ts) st0).1 =
      (true, none) :: (runLimiter true N u ts (mapSet st0 u ⟨u, 1, t0⟩)).1 := by
    simp [runLimiter, hfresh]
  have hrunsnd : (runLimiter true N u (t0 :: ts) st0).2 =
      (runLimiter true N u ts (mapSet st0 u ⟨u, 1, t0⟩)).2 := by
    simp [runLimiter, hfresh]
  have hfinal : mapGet (runLimiter true N u (t0 :: ts) st0).2 u = some ⟨u, N, t0⟩ := by
    rw [hrunsnd, hwin.2]
    have : 1 + ts.length = N := by omega
    rw [this]
  have hrej := checkLimit_in_window_rejected N tLast t0 N u
    (runLimiter true N u (t0 :: ts) st0).2 hfinal ht0 hLast (Nat.le_refl N)
  have hst2 : mapGet (checkLimit true N tLast u
      (runLimiter true N u (t0 :: ts) st0).2).2.2 u = some ⟨u, N, t0⟩ := by
    rw [hrej.1]
    exact mapGet_mapSet_self _ u _
  have hres := checkLimit_reset N tNew t0 N u _ hst2 hNew hN
  refine ⟨?_, ⟨?_, ?_⟩, ?_, ?_⟩
  · rw [hrunfst, hwin.1]
    have : N = ts.length + 1 := by omega
    rw [this]
    rfl
  · rw [hrej.1]
  · exact ⟨_, by rw [hrej.1], hrej.2⟩
  · rw [hres]
  · rw [hres]
    exact mapGet_mapSet_self _ u _

/-- C6, witness: limit 2, fresh user, calls at 0 ms and 5 ms allowed,
the third call at 10 ms rejected with positive retry-after, and a call
at 60000 ms allowed again with the counter reset. -/
theorem claim_C6_rate_limit_window_witness :
    (runLimiter true 2 "u".data [0, 5] []).1 =
      List.replicate 2 (true, none) ∧
    (checkLimit true 2 10 "u".data (runLimiter true 2 "u".data [0, 5] []).2).1 =
      false ∧
    (checkLimit true 2 60000 "u".data
      (checkLimit true 2 10 "u".data
        (runLimiter true 2 "u".data [0, 5] []).2).2.2).1 = true := by
  have h := claim_C6_rate_limit_window 2 (by decide) "u".data 0 [5] 10 60000 []
    rfl (by decide) rfl (by decide) (by decide) (by decide)
  exact ⟨h.1, h.2.1.1, h.2.2.1⟩

/-! ## C9: stale-lock reclamation frame -/

theorem mapGet_cleanupStaleLocks (now : Nat) (st : Store) (k : Str) :
    mapGet (cleanupStaleLocks now st) k = (mapGet st k).map (staleClean now) := by
  induction st with
  | nil => rfl
  | cons e rest ih =>
    obtain ⟨k₀, conv₀⟩ := e
    by_cases h : k₀ = k
    · simp [cleanupStaleLocks, mapGet, h]
    · simp only [cleanupStaleLocks, List.map, mapGet, h, if_neg h]
      simpa [cleanupStaleLocks] using ih

theorem tryAcquireLock_of_not_processing (u : Str) (c : Int) (task : Task)
    (now : Nat) (st : Store) (conv : ConversationState)
    (h : mapGet st (getKey u c) = some conv) (hp : conv.isProcessing = false) :
    (tryAcquireLock u c task now st).1 = true := by
  simp [tryAcquireLock, getConversation, h, hp]

/-- C9: the background sweep, applied to a conversation whose lock has
been held longer than 10 minutes, clears exactly the processing fields
(`isProcessing`, `processingTask`, `lockAcquiredAt`, with `lastActivity`
refreshed) and preserves `step`, `topic`, `generatedTitles`,
`selectedTitle` and `generatedOutline`; the lock becomes acquirable
again; and a conversation that is not processing is left untouched. -/
theorem claim_C9_stale_lock_sweep (u : Str) (c : Int) (task : Task)
    (now now₂ t : Nat) (st : Store) (conv : ConversationState)
    (h : mapGet st (getKey u c) = some conv)
    (hp : conv.isProcessing = true)
    (ht : conv.lockAcquiredAt = some t)
    (hstale : t + 600000 < now) :
    mapGet (cleanupStaleLocks now st) (getKey u c) =
      some { conv with
        isProcessing := false
        processingTask := none
        lockAcquiredAt := none
        lastActivity := now } ∧
    (tryAcquireLock u c task now₂ (cleanupStaleLocks now st)).1 = true ∧
    (∀ (k₂ : Str) (conv₂ : ConversationState), mapGet st k₂ = some conv₂ →
      conv₂.isProcessing = false →
      mapGet (cleanupStaleLocks now st) k₂ = some conv₂) := by
  have hclean : staleClean now conv =
      { conv with
        isProcessing := false
        processingTask := none
        lockAcquiredAt := none
        lastActivity := now } := by
    unfold staleClean
    rw [ht]
    have : now - t > 600000 := by omega
    simp [hp, this]
  have hlook : mapGet (cleanupStaleLocks now st) (getKey u c) =
      some (staleClean now conv) := by
    rw [mapGet_cleanupStaleLocks, h]
    rfl
  refine ⟨?_, ?_, ?_⟩
  · rw [hlook, hclean]
  · exact tryAcquireLock_of_not_processing u c task now₂ _
      { conv with
        isProcessing := false
        processingTask := none
        lockAcquiredAt := none
        lastActivity := now }
      (by rw [hlook, hclean]) rfl
  · intro k₂ conv₂ h₂ hp₂
    rw [mapGet_cleanupStaleLocks, h₂]
    have hid : staleClean now conv₂ = conv₂ := by
      unfold staleClean
      cases conv₂.lockAcquiredAt <;> simp [hp₂]
    simp [hid]

/-- C9, witness: a conversation locked for the `article` task at time 0
swept at time 600001 ms keeps its step, topic and titles but loses its
processing fields, and the lock can be re-acquired. -/
theorem claim_C9_stale_lock_sweep_witness :
    mapGet
      (cleanupStaleLocks 600001
        [(getKey "u".data 1,
          { userId := "u".data, chatId := 1, step := .waiting_title_selection
            topic := some "seo".data, lastActivity := 0, isProcessing := true
            processingTask := some .article, lockAcquiredAt := some 0 })])
      (getKey "u".data 1) =
      some
        { userId := "u".data, chatId := 1, step := .waiting_title_selection
          topic := some "seo".data, lastActivity := 600001, isProcessing := false
          processingTask := none, lockAcquiredAt := none } ∧
    (tryAcquireLock "u".data 1 .titles 600002
      (cleanupStaleLocks 600001
        [(getKey "u".data 1,
          { userId := "u".data, chatId := 1, step := .waiting_title_selection
            topic := some "seo".data, lastActivity := 0, isProcessing := true
            processingTask := some .article, lockAcquiredAt := some 0 })])).1 =
      true := by
  have h := claim_C9_stale_lock_sweep "u".data 1 .titles 600001 600002 0
    [(getKey "u".data 1,
      { userId := "u".data, chatId := 1, step := .waiting_title_selection
        topic := some "seo".data, lastActivity := 0, isProcessing := true
        processingTask := some .article, lockAcquiredAt := some 0 })]
    { userId := "u".data, chatId := 1, step := .waiting_title_selection
      topic := some "seo".data, lastActivity := 0, isProcessing := true
      processingTask := some .article, lockAcquiredAt := some 0 }
    (by simp [mapGet]) rfl rfl (by omega)
  exact ⟨h.1, h.2.1⟩

/-! ## C10: operations on an absent conversation key -/

/-- C10: for a (userId, chatId) pair absent from the store,
`releaseLock` leaves the store exactly unchanged (no entry is created),
while `getConversation` creates — and `updateConversation` starts from —
a fresh default entry in step `idle` (so an update that does not set
`step` leaves the new entry in step `idle`). -/
theorem claim_C10_absent_key_ops (u : Str) (c : Int) (now : Nat)
    (upd : ConversationUpdate) (st : Store)
    (h : mapGet st (getKey u c) = none) :
    releaseLock u c now st = st ∧
    (getConversation u c now st).1 =
      { userId := u, chatId := c, step := .idle, lastActivity := now } ∧
    mapGet (getConversation u c now st).2 (getKey u c) =
      some { userId := u, chatId := c, step := .idle, lastActivity := now } ∧
    mapGet (updateConversation u c upd now st) (getKey u c) =
      some (applyUpdate
        { userId := u, chatId := c, step := .idle, lastActivity := now } upd now) ∧
    (upd.step = none →
      (mapGet (updateConversation u c upd now st) (getKey u c)).map
          ConversationState.step = some .idle) := by
  refine ⟨?_, ?_, ?_, ?_, ?_⟩
  · simp [releaseLock, h]
  · simp [getConversation, h]
  · simp [getConversation, h, mapGet_mapSet_self]
  · simp [updateConversation, getConversation, h, mapGet_mapSet_self]
  · intro hstep
    simp [updateConversation, getConversation, h, mapGet_mapSet_self,
      applyUpdate, hstep]

/-- C10, witness: evaluated at the empty store for user `"u"`, chat 1,
with an update that sets only the topic. -/
theorem claim_C10_absent_key_ops_witness :
    releaseLock "u".data 1 5 [] = [] ∧
    (getConversation "u".data 1 5 []).1.step = .idle ∧
    (mapGet (updateConversation "u".data 1 { topic := some "seo".data } 5 [])
        (getKey "u".data 1)).map ConversationState.step = some .idle := by
  have h := claim_C10_absent_key_ops "u".data 1 5 { topic := some "seo".data } []
    rfl
  exact ⟨h.1, by rw [h.2.1], h.2.2.2.2 rfl⟩

/-! ## C8: topic-length rejection in step waiting_topic -/

/-- C8: in step `waiting_topic`, a message whose sanitized text is
shorter than 5 or longer than 200 characters is rejected —
`handleTopicInput` sends exactly the validation-error message, makes no
provider call, acquires no lock, lets nothing escape, and leaves the
store (hence the conversation step, still `waiting_topic`) unchanged. -/
theorem claim_C8_topic_length_rejected (titlesCall : Except Str (List ArticleTitle))
    (nfc : Str → Str) (u : Str) (c : Int) (topic : Str) (now : Nat) (st : Store)
    (hlen : (sanitizeInput nfc topic).length < 5 ∨
      200 < (sanitizeInput nfc topic).length) :
    (handleTopicInputRun titlesCall nfc u c topic now st).store = st ∧
    (handleTopicInputRun titlesCall nfc u c topic now st).providerCalls = 0 ∧
    (handleTopicInputRun titlesCall nfc u c topic now st).lockAcquired = false ∧
    (handleTopicInputRun titlesCall nfc u c topic now st).escaped = none ∧
    (∃ e, validateTopic (sanitizeInput nfc topic) = ⟨false, some e⟩ ∧
      (handleTopicInputRun titlesCall nfc u c topic now st).messages =
        ["❌ ".data ++ e]) ∧
    (∀ conv, mapGet st (getKey u c) = some conv → conv.step = .waiting_topic →
      (mapGet (handleTopicInputRun titlesCall nfc u c topic now st).store
          (getKey u c)).map ConversationState.step = some .waiting_topic) := by
  have hval : ∃ e, validateTopic (sanitizeInput nfc topic) = ⟨false, some e⟩ := by
    unfold validateTopic
    by_cases h1 : sanitizeInput nfc topic = [] ∨
        (jsTrim (sanitizeInput nfc topic)).length = 0
    · rw [if_pos h1]
      exact ⟨_, rfl⟩
    · rw [if_neg h1]
      by_cases h2 : (sanitizeInput nfc topic).length < 5
      · rw [if_pos h2]
        exact ⟨_, rfl⟩
      · rw [if_neg h2]
        have h3 : (sanitizeInput nfc topic).length > 200 := by omega
        rw [if_pos h3]
        exact ⟨_, rfl⟩
  obtain ⟨e, he⟩ := hval
  have hrun : handleTopicInputRun titlesCall nfc u c topic now st =
      { store := st
        messages := ["❌ ".data ++ e]
        providerCalls := 0
        lockAcquired := false
        escaped := none } := by
    simp [handleTopicInputRun, he]
  refine ⟨by rw [hrun], by rw [hrun], by rw [hrun], by rw [hrun],
    ⟨e, he, by rw [hrun]⟩, ?_⟩
  intro conv hconv hstep
  rw [hrun]
  simp only
  rw [hconv]
  simp [hstep]

/-- C8, witness: the 3-character topic `"abc"` in a store whose
conversation is in step `waiting_topic` is rejected without touching
the store, with no provider call and no lock. -/
theorem claim_C8_topic_length_rejected_witness :
    (handleTopicInputRun (.ok []) (fun s => s) "u".data 1 "abc".data 7
        [(getKey "u".data 1,
          { userId := "u".data, chatId := 1, step := .waiting_topic
            lastActivity := 0 })]).store =
      [(getKey "u".data 1,
        { userId := "u".data, chatId := 1, step := .waiting_topic
          lastActivity := 0 })] ∧
    (handleTopicInputRun (.ok []) (fun s => s) "u".data 1 "abc".data 7
        [(getKey "u".data 1,
          { userId := "u".data, chatId := 1, step := .waiting_topic
            lastActivity := 0 })]).providerCalls = 0 ∧
    (handleTopicInputRun (.ok []) (fun s => s) "u".data 1 "abc".data 7
        [(getKey "u".data 1,
          { userId := "u".data, chatId := 1, step := .waiting_topic
            lastActivity := 0 })]).lockAcquired = false := by
  have h := claim_C8_topic_length_rejected (.ok []) (fun s => s) "u".data 1
    "abc".data 7
    [(getKey "u".data 1,
      { userId := "u".data, chatId := 1, step := .waiting_topic
        lastActivity := 0 })]
    (Or.inl (by decide))
  exact ⟨h.1, h.2.1, h.2.2.1⟩

/-! ## C1: per-conversation lock mutual exclusion -/

theorem mapSet_mapSet_self (m : List (Str × α)) (k : Str) (v w : α) :
    mapSet (mapSet m k v) k w = mapSet m k w := by
  induction m with
  | nil => simp [mapSet]
  | cons e rest ih =>
    obtain ⟨k₀, v₀⟩ := e
    by_cases h : k₀ = k
    · simp [mapSet, h]
    · simp [mapSet, h, ih]

theorem lockedWith_iff (k : Str) (task : Task) (st : Store) :
    lockedWith k task st = true ↔
      ∃ conv, mapGet st k = some conv ∧ conv.isProcessing = true ∧
        conv.processingTask = some task := by
  unfold lockedWith
  cases h : mapGet st k <;> simp

theorem lockedWith_mapSet_ne (st : Store) (k' k : Str) (task : Task)
    (v : ConversationState) (h : k' ≠ k) :
    lockedWith k task (mapSet st k' v) = lockedWith k task st := by
  unfold lockedWith
  rw [mapGet_mapSet_ne st k' k v (Ne.symm h)]

theorem tryAcquireLock_store_eq (u : Str) (c : Int) (task : Task) (now : Nat)
    (st : Store) :
    ∃ v, (tryAcquireLock u c task now st).2 = mapSet st (getKey u c) v := by
  cases hm : mapGet st (getKey u c) with
  | some conv =>
    by_cases hp : conv.isProcessing
    · exact ⟨{ conv with lastActivity := now },
        by simp [tryAcquireLock, getConversation, hm, hp]⟩
    · exact ⟨{ conv with
          lastActivity := now
          isProcessing := true
          processingTask := some task
          lockAcquiredAt := some now },
        by simp [tryAcquireLock, getConversation, hm, hp, mapSet_mapSet_self]⟩
  | none =>
    exact ⟨{ userId := u, chatId := c, step := .idle, lastActivity := now,
             isProcessing := true, processingTask := some task,
             lockAcquiredAt := some now },
      by simp [tryAcquireLock, getConversation, hm, mapSet_mapSet_self]⟩

theorem tryAcquireLock_same_locked (u : Str) (c : Int) (task task' : Task)
    (now : Nat) (st : Store)
    (h : lockedWith (getKey u c) task st = true) :
    (tryAcquireLock u c task' now st).1 = false ∧
    lockedWith (getKey u c) task (tryAcquireLock u c task' now st).2 = true := by
  rw [lockedWith_iff] at h
  obtain ⟨conv, hm, hp, htask⟩ := h
  constructor
  · simp [tryAcquireLock, getConversation, hm, hp]
  · rw [lockedWith_iff]
    refine ⟨{ conv with lastActivity := now }, ?_, by simp [hp], by simp [htask]⟩
    simp [tryAcquireLock, getConversation, hm, hp, mapGet_mapSet_self]

theorem tryAcquireLock_other_locked (k : Str) (task : Task) (u' : Str) (c' : Int)
    (task' : Task) (now : Nat) (st : Store) (hne : getKey u' c' ≠ k)
    (h : lockedWith k task st = true) :
    lockedWith k task (tryAcquireLock u' c' task' now st).2 = true := by
  obtain ⟨v, hv⟩ := tryAcquireLock_store_eq u' c' task' now st
  rw [hv, lockedWith_mapSet_ne st (getKey u' c') k task v hne]
  exact h

theorem releaseLock_other_locked (k : Str) (task : Task) (u' : Str) (c' : Int)
    (now : Nat) (st : Store) (hne : getKey u' c' ≠ k)
    (h : lockedWith k task st = true) :
    lockedWith k task (releaseLock u' c' now st) = true := by
  unfold releaseLock
  cases hm : mapGet st (getKey u' c') with
  | some conv =>
    simp only
    rw [lockedWith_mapSet_ne st (getKey u' c') k task _ hne]
    exact h
  | none => exact h

theorem runLockOps_locked (k : Str) (task : Task) (ops : List LockOp) :
    ∀ st : Store, lockedWith k task st = true → noReleaseOn k ops = true →
      allAcquiresOnKeyFail k ops st = true ∧
      lockedWith k task (runLockOps ops st) = true := by
  induction ops with
  | nil =>
    intro st h _
    exact ⟨rfl, h⟩
  | cons op rest ih =>
    intro st h hnr
    cases op with
    | tryAcquire u' c' task' now' =>
      have hnr' : noReleaseOn k rest = true := by simpa [noReleaseOn] using hnr
      by_cases hk : getKey u' c' = k
      · have hsame := tryAcquireLock_same_locked u' c' task task' now' st
          (by rw [hk]; exact h)
        have hlock2 : lockedWith k task (tryAcquireLock u' c' task' now' st).2 =
            true := by
          rw [← hk]
          exact hsame.2
        have hrec := ih _ hlock2 hnr'
        constructor
        · simp [allAcquiresOnKeyFail, lockStep, hk, hsame.1, hrec.1]
        · simp only [runLockOps, lockStep]
          exact hrec.2
      · have hpres := tryAcquireLock_other_locked k task u' c' task' now' st hk h
        have hrec := ih _ hpres hnr'
        constructor
        · simp [allAcquiresOnKeyFail, lockStep, hk, hrec.1]
        · simp only [runLockOps, lockStep]
          exact hrec.2
    | release u' c' now' =>
      have hsplit : getKey u' c' ≠ k ∧ noReleaseOn k rest = true := by
        simpa [noReleaseOn] using hnr
      have hpres := releaseLock_other_locked k task u' c' now' st hsplit.1 h
      have hrec := ih _ hpres hsplit.2
      constructor
      · simp [allAcquiresOnKeyFail, lockStep, hrec.1]
      · simp only [runLockOps, lockStep]
        exact hrec.2

theorem tryAcquireLock_true_locked (u : Str) (c : Int) (task : Task) (now : Nat)
    (st st₁ : Store) (hacq : tryAcquireLock u c task now st = (true, st₁)) :
    lockedWith (getKey u c) task st₁ = true := by
  cases hm : mapGet st (getKey u c) with
  | some conv =>
    by_cases hp : conv.isProcessing
    · simp [tryAcquireLock, getConversation, hm, hp] at hacq
    · simp [tryAcquireLock, getConversation, hm, hp] at hacq
      unfold lockedWith
      rw [← hacq, mapGet_mapSet_self]
      simp
  | none =>
    simp [tryAcquireLock, getConversation, hm] at hacq
    unfold lockedWith
    rw [← hacq, mapGet_mapSet_self]
    simp

/-- C1: once `tryAcquireLock` has returned `true` for a conversation
key, the conversation is processing the acquired task, every further
`tryAcquireLock` for the same key returns `false` as long as no
`releaseLock` for that key occurs, and at the end of any such
operation sequence the conversation is still processing that same
single task. -/
theorem claim_C1_lock_mutual_exclusion (u : Str) (c : Int) (task : Task)
    (now : Nat) (st st₁ : Store) (ops : List LockOp)
    (hacq : tryAcquireLock u c task now st = (true, st₁))
    (hnr : noReleaseOn (getKey u c) ops = true) :
    lockedWith (getKey u c) task st₁ = true ∧
    allAcquiresOnKeyFail (getKey u c) ops st₁ = true ∧
    lockedWith (getKey u c) task (runLockOps ops st₁) = true := by
  have h1 := tryAcquireLock_true_locked u c task now st st₁ hacq
  have h2 := runLockOps_locked (getKey u c) task ops st₁ h1 hnr
  exact ⟨h1, h2.1, h2.2⟩

/-- C1, witness: after acquiring the `titles` lock on an empty store,
two further acquisition attempts (for `outline` and `article`, also
interleaved with an unrelated user's operations) all fail, and the
conversation is still processing `titles`. -/
theorem claim_C1_lock_mutual_exclusion_witness :
    lockedWith (getKey "u".data 1) .titles
      (tryAcquireLock "u".data 1 .titles 0 []).2 = true ∧
    allAcquiresOnKeyFail (getKey "u".data 1)
      [.tryAcquire "u".data 1 .outline 5,
       .tryAcquire "v".data 2 .titles 6,
       .release "v".data 2 7,
       .tryAcquire "u".data 1 .article 9]
      (tryAcquireLock "u".data 1 .titles 0 []).2 = true ∧
    lockedWith (getKey "u".data 1) .titles
      (runLockOps
        [.tryAcquire "u".data 1 .outline 5,
         .tryAcquire "v".data 2 .titles 6,
         .release "v".data 2 7,
         .tryAcquire "u".data 1 .article 9]
        (tryAcquireLock "u".data 1 .titles 0 []).2) = true := by
  have h := claim_C1_lock_mutual_exclusion "u".data 1 .titles 0 []
    (tryAcquireLock "u".data 1 .titles 0 []).2
    [.tryAcquire "u".data 1 .outline 5,
     .tryAcquire "v".data 2 .titles 6,
     .release "v".data 2 7,
     .tryAcquire "u".data 1 .article 9]
    rfl (by decide)
  exact h

end TelegramContent
